import Mathlib

/-!
Verification of the automaton-auditor pipeline (Python) against its
natural-language specification.

Shallow embedding conventions:
* `src/state.py` pydantic models become Lean structures.  Scores are
  modelled as unconstrained `ℤ` at the input level so that statements
  quantifying over "any combination of input opinion scores" are
  meaningful; pydantic range validation is modelled explicitly where a
  claim depends on it.
* Python `float` arithmetic on the small exact quantities involved
  (sums of integers and halves, and their quotients) is modelled in `ℚ`;
  Python's `round` builtin (round-half-to-even) is modelled exactly by
  `pythonRound`.
* `list(set(...))` over strings has an iteration order that depends on
  the per-process interpreter hash seed; it is modelled by an oracle
  `setOrder : List String → List String` constrained by `validSetOrder`
  (the output is some permutation of the distinct elements).
* Fallible Python code is modelled in `Except String`; a pydantic
  constructor call is modelled by a `pydanticValidate*` function over a
  kwargs record whose fields are `Option`s (a missing keyword argument is
  `none`), returning the validation error that CPython's pydantic v2
  raises when a required field is absent.
-/

namespace AutomatonAuditor

/-! ## Data model (src/state.py) -/

/-- The closed `Literal["Prosecutor", "Defense", "TechLead"]` of
`JudicialOpinion.judge` in `src/state.py`. -/
inductive Judge
  | Prosecutor
  | Defense
  | TechLead
deriving DecidableEq, BEq, Repr

/-- `Evidence` from `src/state.py` (a successfully validated record). -/
structure Evidence where
  id : String
  goal : String
  found : Bool
  content : Option String
  location : String
  rationale : String
  confidence : ℚ
deriving DecidableEq, Repr

/-- `JudicialOpinion` from `src/state.py` (a successfully validated record).
`score` is carried as an unconstrained integer; the pydantic bound
`1 ≤ score ≤ 5` is imposed by `pydanticValidateOpinion` where needed. -/
structure JudicialOpinion where
  id : String
  judge : Judge
  criterion_id : String
  score : ℤ
  argument : String
  cited_evidence : List String
  confidence : ℚ
deriving DecidableEq, Repr

/-- `RubricDimension` from `src/state.py`. -/
structure RubricDimension where
  id : String
  name : String
  target_artifact : String
deriving DecidableEq, Repr

/-- `CriterionResult` from `src/state.py`. -/
structure CriterionResult where
  dimension_id : String
  dimension_name : String
  final_score : ℤ
  judge_opinions : List JudicialOpinion
  dissent_summary : Option String
  remediation : String
deriving DecidableEq, Repr

/-- `AuditReport` from `src/state.py`; `overall_score` (a Python float
holding an exact small decimal) is modelled in `ℚ`. -/
structure AuditReport where
  repo_url : String
  executive_summary : String
  overall_score : ℚ
  criteria : List CriterionResult
  remediation_plan : String
deriving DecidableEq, Repr

/-- The fields of the shared `AgentState` that the pipeline under
verification reads and writes.  The evidence dict is an
insertion-ordered association list, matching Python dict semantics. -/
structure AgentState where
  repo_url : Option String
  pdf_path : Option String
  evidences : List (String × List Evidence)
  opinions : List JudicialOpinion
  rubric_dimensions : List RubricDimension
  final_report : Option AuditReport
deriving Repr

/-- Python truthiness of an optional string: `None` and `""` are falsy. -/
def isTruthy : Option String → Bool
  | none => false
  | some s => s ≠ ""

/-! ## Python `round` (banker's rounding) over `ℚ` -/

/-- CPython's `round(x)` builtin: round to nearest integer with ties
going to the even neighbour. -/
def pythonRound (q : ℚ) : ℤ :=
  if q - (⌊q⌋ : ℚ) < 1/2 then ⌊q⌋
  else if 1/2 < q - (⌊q⌋ : ℚ) then ⌊q⌋ + 1
  else if ⌊q⌋ % 2 = 0 then ⌊q⌋ else ⌊q⌋ + 1

/-- CPython's `round(x, 2)`: round to the nearest multiple of 1/100
(ties to even), modelled exactly over `ℚ`. -/
def round2 (q : ℚ) : ℚ := (pythonRound (q * 100) : ℚ) / 100

/-! ## ChiefJusticeNode (src/nodes/justice.py) -/

/-- The `weights` dict of `ChiefJusticeNode._compute_weighted_score`
(`{"TechLead": 1.5, "Prosecutor": 1.0, "Defense": 1.0}`); the
`dict.get` default of 1.0 is unreachable because `judge` is the closed
literal type. -/
def judgeWeight : Judge → ℚ
  | Judge.TechLead => 3/2
  | Judge.Prosecutor => 1
  | Judge.Defense => 1

/-- `ChiefJusticeNode._compute_weighted_score`.  The Python loop
accumulating `weighted_sum` and `total_weight` is expressed as the two
list sums. -/
def compute_weighted_score (opinions : List JudicialOpinion) : ℤ :=
  if opinions.isEmpty then 1
  else
    let weighted_sum : ℚ := (opinions.map (fun op => (op.score : ℚ) * judgeWeight op.judge)).sum
    let total_weight : ℚ := (opinions.map (fun op => judgeWeight op.judge)).sum
    max 1 (min 5 (pythonRound (weighted_sum / total_weight)))

/-- The weighted mean `weighted_sum / total_weight` appearing inside
`_compute_weighted_score`. -/
def weightedMean (opinions : List JudicialOpinion) : ℚ :=
  ((opinions.map (fun op => (op.score : ℚ) * judgeWeight op.judge)).sum) /
    ((opinions.map (fun op => judgeWeight op.judge)).sum)

/-- `max(scores) - min(scores)` as computed inside
`_generate_dissent_analysis` (0 for an empty list, where Python would
raise; that branch is unreachable under the length guard). -/
def scoreSpread (opinions : List JudicialOpinion) : ℤ :=
  match opinions.map (fun op => op.score) with
  | [] => 0
  | s :: rest => rest.foldl max s - rest.foldl min s

/-- `ChiefJusticeNode._generate_dissent_analysis`. -/
def generate_dissent_analysis (opinions : List JudicialOpinion) : Option String :=
  if opinions.length < 2 then none
  else
    match opinions.map (fun op => op.score) with
    | [] => none
    | s :: rest =>
      let spread := rest.foldl max s - rest.foldl min s
      if 2 ≤ spread then
        let base := "High variance (spread: " ++ toString spread ++ "). "
        match opinions.find? (fun o => o.judge == Judge.Prosecutor),
              opinions.find? (fun o => o.judge == Judge.Defense) with
        | some p, some d =>
          if p.score < d.score then
            some (base ++ "Prosecutor flagged critical gaps that the Defense view as acceptable trade-offs.")
          else some base
        | _, _ => some base
      else none

/-- Models the iteration order of `list(set(...))` over strings: a valid
order function returns some permutation of the distinct elements of its
input.  CPython guarantees the *contents* (each distinct string exactly
once) but the *order* depends on the per-process hash seed. -/
def validSetOrder (f : List String → List String) : Prop :=
  ∀ l : List String, List.Perm (f l) l.dedup

/-- The remediation computation in `ChiefJusticeNode.synthesize_report`
(lines 77-80): filter `found is False`, truncate to the first 3 records,
then `", ".join(list(set(locations)))`. -/
def remediationFor (setOrder : List String → List String)
    (all_evidences : List Evidence) : String :=
  if (all_evidences.filter (fun e => e.found == false)).isEmpty then
    "No critical issues found."
  else "Address failures in: " ++
    String.intercalate ", "
      (setOrder (((all_evidences.filter (fun e => e.found == false)).take 3).map
        (fun e => e.location)))

/-- The per-dimension opinion selection
`[op for op in opinions if op.criterion_id == dim.id]`. -/
def relevantOpinions (opinions : List JudicialOpinion)
    (dim : RubricDimension) : List JudicialOpinion :=
  opinions.filter (fun op => op.criterion_id == dim.id)

/-- The body of the per-dimension loop of
`ChiefJusticeNode.synthesize_report` (lines 68-91), producing one
`CriterionResult`. -/
def criterionFor (setOrder : List String → List String)
    (all_evidences : List Evidence) (opinions : List JudicialOpinion)
    (dim : RubricDimension) : CriterionResult :=
  let relevant_opinions := relevantOpinions opinions dim
  { dimension_id := dim.id
    dimension_name := dim.name
    final_score := compute_weighted_score relevant_opinions
    judge_opinions := relevant_opinions
    dissent_summary := generate_dissent_analysis relevant_opinions
    remediation := remediationFor setOrder all_evidences }

/-- `ChiefJusticeNode.synthesize_report`. -/
def synthesize_report (setOrder : List String → List String)
    (state : AgentState) : AuditReport :=
  let all_evidences := (state.evidences.map Prod.snd).flatten
  let criteria_results := state.rubric_dimensions.map
    (criterionFor setOrder all_evidences state.opinions)
  let overall_avg : ℚ :=
    if criteria_results.isEmpty then 1
    else ((criteria_results.map (fun c => (c.final_score : ℚ))).sum) / (criteria_results.length : ℚ)
  { repo_url :=
      match state.repo_url with
      | none => "Local Scan"
      | some s => if s = "" then "Local Scan" else s
    executive_summary :=
      "Audit synthesized from " ++ toString all_evidences.length ++
        " evidence nodes. Final verdict derived from " ++
        toString state.opinions.length ++ " judicial deliberations."
    overall_score := round2 overall_avg
    criteria := criteria_results
    remediation_plan := "Prioritize remediation based on the Tech Lead's cited technical debt." }

/-! ## The LangGraph pipeline (src/graph.py) -/

/-- The named nodes of the `StateGraph` built in `src/graph.py`. -/
inductive NodeName
  | Detectives
  | EvidenceAggregator
  | Prosecutor
  | Defense
  | TechLead
  | ChiefJustice
deriving DecidableEq, Repr

/-- `sum(len(v) for v in state.evidences.values())` from
`route_after_detectives`. -/
def totalEvidence (state : AgentState) : ℕ :=
  (state.evidences.map (fun kv => kv.2.length)).sum

/-- `route_after_detectives` from `src/graph.py`: `none` models routing
to `END`. -/
def route_after_detectives (state : AgentState) : Option NodeName :=
  if totalEvidence state = 0 then none
  else some NodeName.EvidenceAggregator

/-- The pipeline's external collaborators, abstracted: the detectives
stage's update of the evidence map, the opinion each judge persona
produces from the flattened evidence, and the interpreter's set
iteration order. -/
structure PipelineEnv where
  detectives : AgentState → List (String × List Evidence)
  judgeOpinion : Judge → List Evidence → JudicialOpinion
  setOrder : List String → List String

/-- An execution of the compiled graph of `src/graph.py`:
`START → Detectives`, the conditional edge `route_after_detectives`
(either `END` or `EvidenceAggregator`), the fan-out to the three judge
nodes, and the fan-in at `ChiefJustice → END`.  Returns the final state
together with the list of nodes executed after `Detectives` routing. -/
def runPipeline (env : PipelineEnv) (st0 : AgentState) :
    AgentState × List NodeName :=
  let st1 : AgentState := { st0 with evidences := env.detectives st0 }
  match route_after_detectives st1 with
  | none => (st1, [NodeName.Detectives])
  | some _ =>
    let flat := (st1.evidences.map Prod.snd).flatten
    let ops := [env.judgeOpinion Judge.Prosecutor flat,
                env.judgeOpinion Judge.Defense flat,
                env.judgeOpinion Judge.TechLead flat]
    let st2 : AgentState := { st1 with opinions := st1.opinions ++ ops }
    let report := synthesize_report env.setOrder st2
    ({ st2 with final_report := some report },
     [NodeName.Detectives, NodeName.EvidenceAggregator, NodeName.Prosecutor,
      NodeName.Defense, NodeName.TechLead, NodeName.ChiefJustice])

/-! ## Judges (src/nodes/judges.py) -/

/-- The keyword arguments of a `JudicialOpinion(...)` constructor call;
`none` marks a keyword the call site does not pass. -/
structure JudicialOpinionKwargs where
  id : Option String := none
  judge : Option Judge := none
  criterion_id : Option String := none
  score : Option ℤ := none
  argument : Option String := none
  cited_evidence : Option (List String) := none
  confidence : Option ℚ := none

/-- pydantic v2 validation of a `JudicialOpinion(...)` call: every field
without a default is required, `score` must lie in `[1,5]`, and
`confidence` in `[0,1]`.  Errors are reported for the first offending
field in declaration order. -/
def pydanticValidateOpinion (k : JudicialOpinionKwargs) :
    Except String JudicialOpinion :=
  match k.id with
  | none => Except.error "Field required: id"
  | some i =>
  match k.judge with
  | none => Except.error "Field required: judge"
  | some j =>
  match k.criterion_id with
  | none => Except.error "Field required: criterion_id"
  | some cid =>
  match k.score with
  | none => Except.error "Field required: score"
  | some sc =>
  if sc < 1 ∨ 5 < sc then Except.error "score out of range" else
  match k.argument with
  | none => Except.error "Field required: argument"
  | some arg =>
  match k.cited_evidence with
  | none => Except.error "Field required: cited_evidence"
  | some ce =>
  match k.confidence with
  | none => Except.error "Field required: confidence"
  | some cf =>
  if cf < 0 ∨ 1 < cf then Except.error "confidence out of range" else
  Except.ok { id := i, judge := j, criterion_id := cid, score := sc,
              argument := arg, cited_evidence := ce, confidence := cf }

/-- pydantic validation of the string passed for the `judge` Literal
field (after `persona_name.replace(" ", "")` in the fallback path). -/
def judgeOfString : String → Option Judge
  | "Prosecutor" => some Judge.Prosecutor
  | "Defense" => some Judge.Defense
  | "TechLead" => some Judge.TechLead
  | _ => none

/-- One interaction with the completion service, abstracted:
`hasStructured` is `hasattr(self.llm, "with_structured_output")`;
`structuredResult` is the outcome of the structured call (`error` = the
call or its validation raised; `ok (some op)` = a usable
`JudicialOpinion` or dict; `ok none` = a value of some other type, which
falls through); `standardParse` is the combined outcome of
`ainvoke` + `_ensure_string` + `_clean_response` +
`model_validate_json` (`error` = the call raised or the text failed to
validate). -/
structure CompletionService where
  hasStructured : Bool
  structuredResult : Except Unit (Option JudicialOpinion)
  standardParse : Except Unit JudicialOpinion

/-- The fallback `JudicialOpinion(...)` constructor call in the `except`
block of `JudgeBase.review_evidence` (judges.py lines 66-72).  The call
site passes `judge`, `criterion_id`, `score=3`, `argument` and
`cited_evidence=[]`, and omits `id` and `confidence`. -/
def fallbackOpinion (dims : List RubricDimension) (personaName : String) :
    Except String JudicialOpinion :=
  let safe_judge_name := (personaName.replace " " "")
  let first_dim := match dims.head? with
    | some d => d.id
    | none => "general_audit"
  pydanticValidateOpinion
    { judge := judgeOfString safe_judge_name
      criterion_id := some first_dim
      score := some 3
      argument := some "Technical Limit: The model hit a rate limit (429). Audit based on partial automated evidence."
      cited_evidence := some [] }

/-- `JudgeBase.review_evidence`, paired with the number of
completion-service calls it makes.  A raised exception (including a
pydantic `ValidationError` from the fallback constructor inside the
`except` block) is `Except.error`. -/
def review_evidence (svc : CompletionService) (dims : List RubricDimension)
    (personaName : String) : Except String JudicialOpinion × ℕ :=
  if svc.hasStructured then
    match svc.structuredResult with
    | Except.error _ => (fallbackOpinion dims personaName, 1)
    | Except.ok (some op) => (Except.ok op, 1)
    | Except.ok none =>
      match svc.standardParse with
      | Except.ok op => (Except.ok op, 2)
      | Except.error _ => (fallbackOpinion dims personaName, 2)
  else
    match svc.standardParse with
    | Except.ok op => (Except.ok op, 1)
    | Except.error _ => (fallbackOpinion dims personaName, 1)

/-- The fallback record that the specification describes: `score=3`,
`criterion_id` = first configured dimension id (or a generic sentinel),
an argument stating a technical limitation, `cited_evidence=[]`.
Modelled from the spec (§4.4) for comparison with the code's behaviour. -/
def specFallbackRecord (dims : List RubricDimension) (j : Judge) : JudicialOpinion :=
  { id := "fallback"
    judge := j
    criterion_id := match dims.head? with
      | some d => d.id
      | none => "general_audit"
    score := 3
    argument := "Technical Limit: The model hit a rate limit (429). Audit based on partial automated evidence."
    cited_evidence := []
    confidence := 0 }

/-! ## Detectives (src/nodes/detectives.py) -/

/-- The keyword arguments of an `Evidence(...)` constructor call; `none`
marks a keyword the call site does not pass.  (`content` has a pydantic
default of `None`, so its kwargs value is the field value directly.) -/
structure EvidenceKwargs where
  id : Option String := none
  goal : Option String := none
  found : Option Bool := none
  content : Option String := none
  location : Option String := none
  rationale : Option String := none
  confidence : Option ℚ := none

/-- pydantic v2 validation of an `Evidence(...)` call: every field
without a default (`id`, `goal`, `found`, `location`, `rationale`,
`confidence`) is required, and `confidence` must lie in `[0,1]`. -/
def pydanticValidateEvidence (k : EvidenceKwargs) : Except String Evidence :=
  match k.id with
  | none => Except.error "Field required: id"
  | some i =>
  match k.goal with
  | none => Except.error "Field required: goal"
  | some g =>
  match k.found with
  | none => Except.error "Field required: found"
  | some fd =>
  match k.location with
  | none => Except.error "Field required: location"
  | some loc =>
  match k.rationale with
  | none => Except.error "Field required: rationale"
  | some ra =>
  match k.confidence with
  | none => Except.error "Field required: confidence"
  | some cf =>
  if cf < 0 ∨ 1 < cf then Except.error "confidence out of range" else
  Except.ok { id := i, goal := g, found := fd, content := k.content,
              location := loc, rationale := ra, confidence := cf }

/-- `repo_tools.analyze_graph_structure`'s result shape (the fields
`RepoInvestigator.collect_evidence` reads). -/
structure GraphInfo where
  add_edge_calls : List String
  stategraph_inits : List String
deriving Repr

/-- The outcomes of the repository collaborator calls made by
`RepoInvestigator.collect_evidence`; `error s` models a raised exception
whose string form is `s`. -/
structure RepoEnv where
  cloneResult : Except String String
  historyResult : Except String (List String)
  graphResult : Except String GraphInfo

/-- Rendering of `str(commits[:10])` / `str(graph_info)`; the exact text
is irrelevant to every claim, only that it is a deterministic function
of its argument. -/
def pyStr (parts : List String) : String :=
  "[" ++ String.intercalate ", " parts ++ "]"

/-- `RepoInvestigator.collect_evidence` (detectives.py lines 19-90).
Each `Evidence(...)` construction goes through pydantic validation; an
`Except.error` result models an exception escaping the method.  The
constructor calls mirror the source keyword-for-keyword — in particular
none of them passes `id`. -/
def repoInvestigator_collect_evidence (env : RepoEnv)
    (repo_url : Option String) : Except String (List Evidence) := do
  if ¬ isTruthy repo_url then
    let e ← pydanticValidateEvidence
      { goal := some "git_forensic_analysis", found := some false,
        content := none, location := some "",
        rationale := some "No repo_url provided to detective",
        confidence := some 0 }
    return [e]
  else
    match env.cloneResult with
    | Except.error exc =>
      let e ← pydanticValidateEvidence
        { goal := some "git_forensic_analysis", found := some false,
          content := none, location := some (repo_url.getD ""),
          rationale := some ("Clone failed: " ++ exc),
          confidence := some 0 }
      return [e]
    | Except.ok repo_path =>
      let (commits, failList) ← do
        match env.historyResult with
        | Except.error exc => do
          let e ← pydanticValidateEvidence
            { goal := some "git_forensic_analysis", found := some false,
              content := none, location := some repo_path,
              rationale := some ("Failed to extract git history: " ++ exc),
              confidence := some 0 }
          pure (([] : List String), [e])
        | Except.ok commits => pure (commits, [])
      let graph_info := match env.graphResult with
        | Except.error _ => { add_edge_calls := [], stategraph_inits := [] : GraphInfo }
        | Except.ok gi => gi
      let e1 ← pydanticValidateEvidence
        { goal := some "git_forensic_analysis",
          found := some (decide (0 < commits.length)),
          content := some (pyStr (commits.take 10)),
          location := some repo_path,
          rationale := some "Extracted git log; >3 commits indicate activity",
          confidence := some (9/10) }
      let e2 ← pydanticValidateEvidence
        { goal := some "graph_orchestration",
          found := some (¬ graph_info.add_edge_calls.isEmpty ||
                         ¬ graph_info.stategraph_inits.isEmpty),
          content := some (pyStr graph_info.add_edge_calls ++
                           pyStr graph_info.stategraph_inits),
          location := some repo_path,
          rationale := some "AST scan for StateGraph and add_edge calls",
          confidence := some (8/10) }
      return failList ++ [e1, e2]

/-! ### Evidence-map keys written by the collector stage

The key each `collect_evidence` method assigns in `self.state.evidences`
(detectives.py lines 34/89, 108/123/156, and 210 — all three classes
assign the literal key `"repo_investigator"`), and the per-detective
keys that `run_detectives` (lines 231-234) zips the gathered results
onto afterwards. -/

/-- Key assigned by `RepoInvestigator.collect_evidence` (lines 34, 89). -/
def repoInvestigatorStateKey : String := "repo_investigator"

/-- Key assigned by `DocAnalyst.collect_evidence` (lines 108, 123, 156). -/
def docAnalystStateKey : String := "repo_investigator"

/-- Key assigned by `VisionInspector.collect_evidence` (line 210). -/
def visionInspectorStateKey : String := "repo_investigator"

/-- The per-detective keys used by the final merge in `run_detectives`
(the `zip` at detectives.py lines 231-234). -/
def runDetectivesMergeKeys : List String :=
  ["repo_investigator", "doc_analyst", "vision_inspector"]

/-- A single dict assignment `state.evidences[k] = v`. -/
def applyAssign (m : String → Option (List Evidence))
    (kv : String × List Evidence) : String → Option (List Evidence) :=
  fun k => if k = kv.1 then some kv.2 else m k

/-- A sequence of dict assignments, applied left to right. -/
def applyAssigns (m : String → Option (List Evidence))
    (l : List (String × List Evidence)) : String → Option (List Evidence) :=
  l.foldl applyAssign m

/-- The evidence map after `run_detectives`: first the collectors' own
internal assignments (in whatever order the scheduler interleaves them —
`innerOrder`), then the fixed final `zip` merge assigning each
detective's gathered result list to its own key. -/
def runDetectivesFinalMap (init : String → Option (List Evidence))
    (innerOrder : List (String × List Evidence))
    (r1 r2 r3 : List Evidence) : String → Option (List Evidence) :=
  applyAssigns (applyAssigns init innerOrder)
    [("repo_investigator", r1), ("doc_analyst", r2), ("vision_inspector", r3)]

/-! ## Helper lemmas -/

theorem pythonRound_ge (q : ℚ) : q - 1/2 ≤ (pythonRound q : ℚ) := by
  have hf : (⌊q⌋ : ℚ) ≤ q := Int.floor_le q
  have hc : q < (⌊q⌋ : ℚ) + 1 := Int.lt_floor_add_one q
  unfold pythonRound
  split_ifs with h1 h2 h3 <;> push_cast <;> linarith

theorem pythonRound_le (q : ℚ) : (pythonRound q : ℚ) ≤ q + 1/2 := by
  have hf : (⌊q⌋ : ℚ) ≤ q := Int.floor_le q
  have hc : q < (⌊q⌋ : ℚ) + 1 := Int.lt_floor_add_one q
  unfold pythonRound
  split_ifs with h1 h2 h3 <;> push_cast <;> linarith

theorem abs_pythonRound_sub_le (q : ℚ) : |(pythonRound q : ℚ) - q| ≤ 1/2 := by
  rw [abs_le]
  constructor
  · linarith [pythonRound_ge q]
  · linarith [pythonRound_le q]

theorem floor_le_pythonRound (q : ℚ) : ⌊q⌋ ≤ pythonRound q := by
  unfold pythonRound
  split_ifs <;> omega

theorem pythonRound_le_ceil (q : ℚ) : pythonRound q ≤ ⌈q⌉ := by
  unfold pythonRound
  split_ifs with h1 h2 h3
  · exact Int.floor_le_ceil q
  · rw [not_lt] at h1
    exact Int.add_one_le_iff.mpr (Int.lt_ceil.mpr (by linarith))
  · exact Int.floor_le_ceil q
  · rw [not_lt] at h1
    exact Int.add_one_le_iff.mpr (Int.lt_ceil.mpr (by linarith))

theorem one_le_compute_weighted_score (opinions : List JudicialOpinion) :
    1 ≤ compute_weighted_score opinions := by
  unfold compute_weighted_score
  split_ifs
  · exact le_refl 1
  · exact le_max_left 1 _

theorem compute_weighted_score_le_five (opinions : List JudicialOpinion) :
    compute_weighted_score opinions ≤ 5 := by
  unfold compute_weighted_score
  split_ifs
  · norm_num
  · exact max_le (by norm_num) (min_le_left _ _)

theorem abs_round2_sub_le (q : ℚ) : |round2 q - q| ≤ 1/200 := by
  have h := abs_pythonRound_sub_le (q * 100)
  unfold round2
  have heq : (pythonRound (q * 100) : ℚ) / 100 - q =
      ((pythonRound (q * 100) : ℚ) - q * 100) / 100 := by ring
  rw [heq, abs_div, abs_of_pos (by norm_num : (0:ℚ) < 100)]
  linarith

theorem one_le_round2 {q : ℚ} (h : 1 ≤ q) : 1 ≤ round2 q := by
  unfold round2
  have h100 : (100 : ℤ) ≤ ⌊q * 100⌋ := Int.le_floor.mpr (by push_cast; linarith)
  have := floor_le_pythonRound (q * 100)
  have hcast : (100 : ℚ) ≤ (pythonRound (q * 100) : ℚ) := by exact_mod_cast le_trans h100 this
  linarith

theorem round2_le_five {q : ℚ} (h : q ≤ 5) : round2 q ≤ 5 := by
  unfold round2
  have h500 : ⌈q * 100⌉ ≤ (500 : ℤ) := Int.ceil_le.mpr (by push_cast; linarith)
  have := pythonRound_le_ceil (q * 100)
  have hcast : (pythonRound (q * 100) : ℚ) ≤ 500 := by exact_mod_cast le_trans this h500
  linarith

/-! ## Concrete fixtures used by witnesses and counterexamples -/

/-- A rubric dimension fixture. -/
def dimW : RubricDimension :=
  { id := "d1", name := "Dimension One", target_artifact := "repo" }

/-- A second rubric dimension fixture. -/
def dimW2 : RubricDimension :=
  { id := "d2", name := "Dimension Two", target_artifact := "doc" }

/-- Opinion fixture builder. -/
def mkOp (j : Judge) (s : ℤ) : JudicialOpinion :=
  { id := "o", judge := j, criterion_id := "d1", score := s,
    argument := "arg", cited_evidence := [], confidence := 1 }

/-- Evidence fixture builder (location `loc`, `found=false`). -/
def mkEvF (i loc : String) : Evidence :=
  { id := i, goal := "g", found := false, content := none,
    location := loc, rationale := "r", confidence := 0 }

/-- A state fixture with one dimension, three judge opinions and one
`found=false` evidence record. -/
def stW : AgentState :=
  { repo_url := some "https://example.org/r"
    pdf_path := none
    evidences := [("repo_investigator", [mkEvF "e1" "src/a.py"])]
    opinions := [mkOp Judge.Prosecutor 2, mkOp Judge.Defense 2, mkOp Judge.TechLead 5]
    rubric_dimensions := [dimW]
    final_report := none }

/-- A state fixture with two dimensions and no evidence or opinions. -/
def stW2 : AgentState :=
  { repo_url := none
    pdf_path := none
    evidences := []
    opinions := []
    rubric_dimensions := [dimW, dimW2]
    final_report := none }

/-! ## Claim theorems -/

/-- C1: for every rubric dimension, the synthesized `final_score` is the
weighted mean of the opinions whose `criterion_id` matches the dimension
(weight 1.5 for TechLead, 1.0 for Prosecutor and Defense), rounded to a
nearest integer and clamped to `[1,5]`; with no matching opinions it is
1; and it always lies in `[1,5]` whatever the input scores. -/
theorem C1_final_score_weighted_mean (setOrder : List String → List String)
    (st : AgentState) (dim : RubricDimension) :
    (synthesize_report setOrder st).criteria =
      st.rubric_dimensions.map
        (criterionFor setOrder ((st.evidences.map Prod.snd).flatten) st.opinions) ∧
    (criterionFor setOrder ((st.evidences.map Prod.snd).flatten) st.opinions dim).final_score
      = compute_weighted_score (relevantOpinions st.opinions dim) ∧
    (relevantOpinions st.opinions dim = [] →
      compute_weighted_score (relevantOpinions st.opinions dim) = 1) ∧
    (relevantOpinions st.opinions dim ≠ [] →
      compute_weighted_score (relevantOpinions st.opinions dim) =
        max 1 (min 5 (pythonRound (weightedMean (relevantOpinions st.opinions dim)))) ∧
      |(pythonRound (weightedMean (relevantOpinions st.opinions dim)) : ℚ) -
          weightedMean (relevantOpinions st.opinions dim)| ≤ 1/2) ∧
    judgeWeight Judge.TechLead = 3/2 ∧ judgeWeight Judge.Prosecutor = 1 ∧
    judgeWeight Judge.Defense = 1 ∧
    1 ≤ compute_weighted_score (relevantOpinions st.opinions dim) ∧
    compute_weighted_score (relevantOpinions st.opinions dim) ≤ 5 := by
  refine ⟨rfl, rfl, ?_, ?_, rfl, rfl, rfl,
    one_le_compute_weighted_score _, compute_weighted_score_le_five _⟩
  · intro h
    rw [compute_weighted_score, h]
    rfl
  · intro h
    have hne : (relevantOpinions st.opinions dim).isEmpty = false := by
      simpa [List.isEmpty_iff] using h
    constructor
    · rw [compute_weighted_score, hne]
      rfl
    · exact abs_pythonRound_sub_le _

/-- Witness for C1 at a concrete state: the nonempty-opinions hypothesis
is discharged at `stW`/`dimW`. -/
theorem C1_witness :
    relevantOpinions stW.opinions dimW ≠ [] ∧
    compute_weighted_score (relevantOpinions stW.opinions dimW) =
      max 1 (min 5 (pythonRound (weightedMean (relevantOpinions stW.opinions dimW)))) := by
  have h : relevantOpinions stW.opinions dimW ≠ [] := by decide
  exact ⟨h, ((C1_final_score_weighted_mean List.dedup stW dimW).2.2.2.1 h).1⟩

/-- C6: `dissent_summary` is non-`none` iff the selected opinion subset
has at least 2 members and a score spread of at least 2; it is never
flagged for fewer than 2 opinions; and when the (first) Prosecutor
opinion scores strictly below the (first) Defense opinion, the summary
text names that the Prosecutor flagged concerns the Defense treats as
acceptable. -/
theorem C6_dissent_characterisation (ops : List JudicialOpinion) :
    ((generate_dissent_analysis ops).isSome = true ↔
      2 ≤ ops.length ∧ 2 ≤ scoreSpread ops) ∧
    (ops.length < 2 → generate_dissent_analysis ops = none) ∧
    (∀ s p d, generate_dissent_analysis ops = some s →
      ops.find? (fun o => o.judge == Judge.Prosecutor) = some p →
      ops.find? (fun o => o.judge == Judge.Defense) = some d →
      p.score < d.score →
      s = "High variance (spread: " ++ toString (scoreSpread ops) ++ "). " ++
        "Prosecutor flagged critical gaps that the Defense view as acceptable trade-offs.") ∧
    (∀ f evs opinions dim,
      (criterionFor f evs opinions dim).dissent_summary =
        generate_dissent_analysis (relevantOpinions opinions dim)) := by
  refine ⟨?_, ?_, ?_, fun f evs opinions dim => rfl⟩
  · by_cases hlen : ops.length < 2
    · simp only [generate_dissent_analysis, if_pos hlen, Option.isSome_none]
      constructor
      · intro hfalse
        exact absurd hfalse (by simp)
      · intro ⟨h2, _⟩
        omega
    · rcases ops with _ | ⟨a, _ | ⟨b, t⟩⟩
      · simp at hlen
      · simp at hlen
      · unfold generate_dissent_analysis scoreSpread
        rw [if_neg hlen]
        simp only [List.map_cons]
        by_cases hs : 2 ≤ (List.foldl max a.score (b.score :: List.map (fun op => op.score) t)
            - List.foldl min a.score (b.score :: List.map (fun op => op.score) t))
        · rw [if_pos hs]
          constructor
          · intro _
            exact ⟨by simp [List.length_cons], hs⟩
          · intro _
            cases (a :: b :: t).find? (fun o => o.judge == Judge.Prosecutor) with
            | none => rfl
            | some p =>
              cases (a :: b :: t).find? (fun o => o.judge == Judge.Defense) with
              | none => rfl
              | some d =>
                by_cases hpd : p.score < d.score
                · simp [hpd]
                · simp [hpd]
        · rw [if_neg hs]
          simp only [Option.isSome_none]
          constructor
          · intro hfalse
            exact absurd hfalse (by simp)
          · intro ⟨_, h2⟩
            exact absurd h2 hs
  · intro hlen
    simp only [generate_dissent_analysis, if_pos hlen]
  · intro s p d hsome hp hd hlt
    by_cases hlen : ops.length < 2
    · rw [generate_dissent_analysis, if_pos hlen] at hsome
      exact absurd hsome (by simp)
    · rcases ops with _ | ⟨a, _ | ⟨b, t⟩⟩
      · simp at hlen
      · simp at hlen
      · rw [generate_dissent_analysis, if_neg hlen] at hsome
        simp only [List.map_cons] at hsome
        rw [hp, hd] at hsome
        by_cases hs : 2 ≤ (List.foldl max a.score (b.score :: List.map (fun op => op.score) t)
            - List.foldl min a.score (b.score :: List.map (fun op => op.score) t))
        · rw [if_pos hs] at hsome
          simp only [if_pos hlt] at hsome
          have := Option.some.inj hsome
          rw [← this]
          rfl
        · rw [if_neg hs] at hsome
          exact absurd hsome (by simp)

/-- Witness for C6: the spec's end-to-end example (scores 1, 5, 4 for
one dimension) flags dissent and its summary names the
Prosecutor/Defense disagreement. -/
theorem C6_witness :
    generate_dissent_analysis [mkOp Judge.Prosecutor 1, mkOp Judge.Defense 5, mkOp Judge.TechLead 4]
        = some "High variance (spread: 4). Prosecutor flagged critical gaps that the Defense view as acceptable trade-offs." ∧
    (2 ≤ ([mkOp Judge.Prosecutor 1, mkOp Judge.Defense 5, mkOp Judge.TechLead 4] : List JudicialOpinion).length ∧
      2 ≤ scoreSpread [mkOp Judge.Prosecutor 1, mkOp Judge.Defense 5, mkOp Judge.TechLead 4]) := by
  refine ⟨by decide, ?_⟩
  exact (C6_dissent_characterisation
    [mkOp Judge.Prosecutor 1, mkOp Judge.Defense 5, mkOp Judge.TechLead 4]).1.mp (by decide)

/-- C10: all `CriterionResult`s in one synthesized report carry the
identical remediation string, computed from the full `found=false`
evidence of the run, not filtered by dimension. -/
theorem C10_remediation_uniform (f : List String → List String)
    (st : AgentState) (c1 c2 : CriterionResult)
    (h1 : c1 ∈ (synthesize_report f st).criteria)
    (h2 : c2 ∈ (synthesize_report f st).criteria) :
    c1.remediation = c2.remediation ∧
    c1.remediation = remediationFor f ((st.evidences.map Prod.snd).flatten) := by
  have key : ∀ c ∈ (synthesize_report f st).criteria,
      c.remediation = remediationFor f ((st.evidences.map Prod.snd).flatten) := by
    intro c hc
    have hcrit : (synthesize_report f st).criteria =
        st.rubric_dimensions.map
          (criterionFor f ((st.evidences.map Prod.snd).flatten) st.opinions) := rfl
    rw [hcrit] at hc
    obtain ⟨dim, _, rfl⟩ := List.mem_map.mp hc
    rfl
  exact ⟨(key c1 h1).trans (key c2 h2).symm, key c1 h1⟩

/-- Witness for C10 at a two-dimension state. -/
theorem C10_witness :
    (criterionFor List.dedup [] stW2.opinions dimW ∈ (synthesize_report List.dedup stW2).criteria) ∧
    (criterionFor List.dedup [] stW2.opinions dimW2 ∈ (synthesize_report List.dedup stW2).criteria) ∧
    (criterionFor List.dedup [] stW2.opinions dimW).remediation =
      (criterionFor List.dedup [] stW2.opinions dimW2).remediation := by
  have h1 : criterionFor List.dedup [] stW2.opinions dimW ∈ (synthesize_report List.dedup stW2).criteria := by
    decide
  have h2 : criterionFor List.dedup [] stW2.opinions dimW2 ∈ (synthesize_report List.dedup stW2).criteria := by
    decide
  exact ⟨h1, h2, (C10_remediation_uniform List.dedup stW2 _ _ h1 h2).1⟩

/-- `List.dedup` is one valid iteration order of `list(set(...))`. -/
theorem validSetOrder_dedup : validSetOrder List.dedup :=
  fun _ => List.Perm.refl _

/-- Reversed dedup: another valid iteration order of `list(set(...))`
(a different hash seed can produce it). -/
def dedupReverse (l : List String) : List String := l.dedup.reverse

theorem validSetOrder_dedupReverse : validSetOrder dedupReverse :=
  fun l => List.reverse_perm l.dedup

/-- The synthesized `overall_score` as a closed form over the rubric
dimensions. -/
theorem overall_score_eq (f : List String → List String) (st : AgentState) :
    (synthesize_report f st).overall_score =
      round2 (if st.rubric_dimensions.isEmpty then 1
        else ((st.rubric_dimensions.map
            (fun dim => (compute_weighted_score (relevantOpinions st.opinions dim) : ℚ))).sum) /
          (st.rubric_dimensions.length : ℚ)) := by
  show round2 _ = round2 _
  congr 1
  have hie : ∀ (l : List RubricDimension) (g : RubricDimension → CriterionResult),
      (l.map g).isEmpty = l.isEmpty := by
    intro l g
    cases l <;> rfl
  rw [List.map_map, hie, List.length_map]
  rfl

/-- C9: `overall_score` is the arithmetic mean of the per-dimension
`final_score`s rounded to 2 decimals, is 1.0 with no dimensions, and
always lies in `[1.0, 5.0]`. -/
theorem C9_overall_score (f : List String → List String) (st : AgentState) :
    (st.rubric_dimensions = [] → (synthesize_report f st).overall_score = 1) ∧
    (st.rubric_dimensions ≠ [] →
      (synthesize_report f st).overall_score =
        round2 (((synthesize_report f st).criteria.map (fun c => (c.final_score : ℚ))).sum /
          ((synthesize_report f st).criteria.length : ℚ)) ∧
      |(synthesize_report f st).overall_score -
          ((synthesize_report f st).criteria.map (fun c => (c.final_score : ℚ))).sum /
            ((synthesize_report f st).criteria.length : ℚ)| ≤ 1/200) ∧
    1 ≤ (synthesize_report f st).overall_score ∧
    (synthesize_report f st).overall_score ≤ 5 := by
  have hOS := overall_score_eq f st
  have hcrit : (synthesize_report f st).criteria.map (fun c => (c.final_score : ℚ)) =
      st.rubric_dimensions.map
        (fun dim => (compute_weighted_score (relevantOpinions st.opinions dim) : ℚ)) := by
    have hc : (synthesize_report f st).criteria =
        st.rubric_dimensions.map
          (criterionFor f ((st.evidences.map Prod.snd).flatten) st.opinions) := rfl
    rw [hc, List.map_map]
    rfl
  have hlen : (synthesize_report f st).criteria.length = st.rubric_dimensions.length :=
    List.length_map _ _
  by_cases hdim : st.rubric_dimensions = []
  · have h1 : (synthesize_report f st).overall_score = 1 := by
      rw [hOS, hdim]
      norm_num [round2, pythonRound]
    refine ⟨fun _ => h1, fun hne => absurd hdim hne, by rw [h1], by rw [h1]; norm_num⟩
  · have hne : st.rubric_dimensions.isEmpty = false := by
      simpa [List.isEmpty_iff] using hdim
    have hlpos : 0 < st.rubric_dimensions.length := List.length_pos.mpr hdim
    have hlposQ : (0 : ℚ) < (st.rubric_dimensions.length : ℚ) := by exact_mod_cast hlpos
    set L : List ℚ := st.rubric_dimensions.map
      (fun dim => (compute_weighted_score (relevantOpinions st.opinions dim) : ℚ)) with hL
    have hLlen : L.length = st.rubric_dimensions.length := List.length_map _ _
    have hlow : ∀ x ∈ L, (1 : ℚ) ≤ x := by
      intro x hx
      obtain ⟨dim, _, rfl⟩ := List.mem_map.mp hx
      exact_mod_cast one_le_compute_weighted_score _
    have hhigh : ∀ x ∈ L, x ≤ (5 : ℚ) := by
      intro x hx
      obtain ⟨dim, _, rfl⟩ := List.mem_map.mp hx
      exact_mod_cast compute_weighted_score_le_five _
    have hsum_low : (st.rubric_dimensions.length : ℚ) ≤ L.sum := by
      have := List.card_nsmul_le_sum L 1 hlow
      rw [nsmul_eq_mul, mul_one, hLlen] at this
      exact_mod_cast this
    have hsum_high : L.sum ≤ (st.rubric_dimensions.length : ℚ) * 5 := by
      have := List.sum_le_card_nsmul L 5 hhigh
      rw [nsmul_eq_mul, hLlen] at this
      exact_mod_cast this
    have hmean_low : (1 : ℚ) ≤ L.sum / (st.rubric_dimensions.length : ℚ) := by
      rw [le_div_iff₀ hlposQ]
      linarith
    have hmean_high : L.sum / (st.rubric_dimensions.length : ℚ) ≤ 5 := by
      rw [div_le_iff₀ hlposQ]
      linarith
    have hform : (synthesize_report f st).overall_score =
        round2 (L.sum / (st.rubric_dimensions.length : ℚ)) := by
      rw [hOS, hne]
      simp only [Bool.false_eq_true, if_false]
    refine ⟨fun h => absurd h hdim, fun _ => ⟨?_, ?_⟩, ?_, ?_⟩
    · rw [hform, hcrit, hlen]
    · rw [hform, hcrit, hlen]
      exact abs_round2_sub_le _
    · rw [hform]
      exact one_le_round2 hmean_low
    · rw [hform]
      exact round2_le_five hmean_high

/-- Witness for C9: the nonempty-dimension case at `stW`. -/
theorem C9_witness :
    stW.rubric_dimensions ≠ [] ∧
    (synthesize_report List.dedup stW).overall_score =
      round2 (((synthesize_report List.dedup stW).criteria.map (fun c => (c.final_score : ℚ))).sum /
        ((synthesize_report List.dedup stW).criteria.length : ℚ)) := by
  have h : stW.rubric_dimensions ≠ [] := by decide
  exact ⟨h, ((C9_overall_score List.dedup stW).2.1 h).1⟩

/-- The remediation computation as the claim words it (modelled from the
spec, for comparison): deduplicate the `found=false` locations first,
then name at most 3 of them. -/
def claimRemediation (all_evidences : List Evidence) : String :=
  let relevant := all_evidences.filter (fun e => e.found == false)
  if relevant.isEmpty then "No critical issues found."
  else "Address failures in: " ++
    String.intercalate ", " ((relevant.map (fun e => e.location)).dedup.take 3)

/-- Four `found=false` records at two distinct locations, the first
three all at location `a`. -/
def evs4 : List Evidence :=
  [mkEvF "e1" "a", mkEvF "e2" "a", mkEvF "e3" "a", mkEvF "e4" "b"]

/-- Counterexample for C7: the code truncates to the first 3 evidence
records *before* deduplicating by location, so at `evs4` it names only
location `a`, while the claim's procedure (deduplicate, then cap at 3
distinct locations) also names `b`. -/
theorem C7_counterexample :
    remediationFor List.dedup evs4 = "Address failures in: a" ∧
    claimRemediation evs4 = "Address failures in: a, b" ∧
    remediationFor List.dedup evs4 ≠ claimRemediation evs4 := by
  refine ⟨by decide, by decide, by decide⟩

/-- C7 (amended): the remediation string is derived from the *first 3*
`found=false` evidence records, deduplicated by location — hence at most
3 distinct locations, all of them `found=false` locations — and is
"No critical issues found." when no `found=false` evidence exists. -/
theorem C7_remediation_first_three (f : List String → List String)
    (evs : List Evidence) (hvalid : validSetOrder f) :
    ((evs.filter (fun e => e.found == false)).isEmpty = true →
      remediationFor f evs = "No critical issues found.") ∧
    ((evs.filter (fun e => e.found == false)).isEmpty = false →
      ∃ L, remediationFor f evs = "Address failures in: " ++ String.intercalate ", " L ∧
        L.Nodup ∧ L.length ≤ 3 ∧
        List.Perm L ((((evs.filter (fun e => e.found == false)).take 3).map
          (fun e => e.location)).dedup) ∧
        (∀ x ∈ L, x ∈ (evs.filter (fun e => e.found == false)).map (fun e => e.location))) ∧
    (∀ setOrder evsx ops dim,
      (criterionFor setOrder evsx ops dim).remediation = remediationFor setOrder evsx) := by
  refine ⟨?_, ?_, fun setOrder evsx ops dim => rfl⟩
  · intro h
    rw [remediationFor, if_pos h]
  · intro h
    have hperm := hvalid (((evs.filter (fun e => e.found == false)).take 3).map
      (fun e => e.location))
    refine ⟨f (((evs.filter (fun e => e.found == false)).take 3).map (fun e => e.location)),
      ?_, ?_, ?_, hperm, ?_⟩
    · rw [remediationFor, if_neg (by rw [h]; exact Bool.false_ne_true)]
    · exact hperm.nodup_iff.mpr (List.nodup_dedup _)
    · calc (f (((evs.filter (fun e => e.found == false)).take 3).map
            (fun e => e.location))).length
          = ((((evs.filter (fun e => e.found == false)).take 3).map
            (fun e => e.location)).dedup).length := hperm.length_eq
        _ ≤ ((((evs.filter (fun e => e.found == false)).take 3).map
            (fun e => e.location))).length := (List.dedup_sublist _).length_le
        _ = ((evs.filter (fun e => e.found == false)).take 3).length := List.length_map _ _
        _ ≤ 3 := by rw [List.length_take]; exact min_le_left _ _
    · intro x hx
      have hx2 := List.mem_dedup.mp (hperm.mem_iff.mp hx)
      obtain ⟨e, he, rfl⟩ := List.mem_map.mp hx2
      exact List.mem_map_of_mem _ (List.take_subset _ _ he)

/-- Witness for C7 at `evs4` with set order `List.dedup`. -/
theorem C7_witness :
    validSetOrder List.dedup ∧
    (∃ L, remediationFor List.dedup evs4 = "Address failures in: " ++ String.intercalate ", " L ∧
      L.Nodup ∧ L.length ≤ 3 ∧
      List.Perm L ((((evs4.filter (fun e => e.found == false)).take 3).map
        (fun e => e.location)).dedup) ∧
      (∀ x ∈ L, x ∈ (evs4.filter (fun e => e.found == false)).map (fun e => e.location))) := by
  refine ⟨validSetOrder_dedup, ?_⟩
  exact (C7_remediation_first_three List.dedup evs4 validSetOrder_dedup).2.1 (by decide)

/-- A state with two distinct `found=false` locations. -/
def stC8 : AgentState :=
  { repo_url := some "https://example.org/r"
    pdf_path := none
    evidences := [("repo_investigator", [mkEvF "e1" "a", mkEvF "e2" "b"])]
    opinions := []
    rubric_dimensions := [dimW]
    final_report := none }

/-- Counterexample for C8: two runs of report synthesis on the identical
state, differing only in the interpreter's `set` iteration order (both
orders are realizable under Python string-hash randomization), produce
different `AuditReport`s — the remediation strings list the two
locations in different orders. -/
theorem C8_counterexample :
    validSetOrder List.dedup ∧ validSetOrder dedupReverse ∧
    synthesize_report List.dedup stC8 ≠ synthesize_report dedupReverse stC8 := by
  refine ⟨validSetOrder_dedup, validSetOrder_dedupReverse, ?_⟩
  intro h
  have hrem := congrArg (fun r => r.criteria.map (fun c => c.remediation)) h
  exact absurd hrem (by decide)

/-- C8 (amended): report synthesis is a pure function of the evidence
map, opinion list, rubric dimensions, repo url and the interpreter's set
iteration order; every output component except the location ordering
inside remediation strings (scores, dissent summaries, overall score,
executive summary) is moreover independent of that iteration order. -/
theorem C8_determinism (f g : List String → List String) (s1 s2 : AgentState)
    (hev : s1.evidences = s2.evidences) (hop : s1.opinions = s2.opinions)
    (hdim : s1.rubric_dimensions = s2.rubric_dimensions)
    (hurl : s1.repo_url = s2.repo_url) :
    synthesize_report f s1 = synthesize_report f s2 ∧
    (synthesize_report f s1).criteria.map (fun c => c.final_score) =
      (synthesize_report g s1).criteria.map (fun c => c.final_score) ∧
    (synthesize_report f s1).criteria.map (fun c => c.dissent_summary) =
      (synthesize_report g s1).criteria.map (fun c => c.dissent_summary) ∧
    (synthesize_report f s1).overall_score = (synthesize_report g s1).overall_score ∧
    (synthesize_report f s1).executive_summary =
      (synthesize_report g s1).executive_summary := by
  have hc : ∀ (k : List String → List String),
      (synthesize_report k s1).criteria =
        s1.rubric_dimensions.map
          (criterionFor k ((s1.evidences.map Prod.snd).flatten) s1.opinions) :=
    fun k => rfl
  refine ⟨?_, ?_, ?_, ?_, rfl⟩
  · simp only [synthesize_report, hev, hop, hdim, hurl]
  · rw [hc f, hc g, List.map_map, List.map_map]
    rfl
  · rw [hc f, hc g, List.map_map, List.map_map]
    rfl
  · rw [overall_score_eq f s1, overall_score_eq g s1]

/-- Witness for C8 at `stW` (hypotheses discharged by reflexivity). -/
theorem C8_witness :
    (synthesize_report List.dedup stW).overall_score =
      (synthesize_report dedupReverse stW).overall_score :=
  (C8_determinism List.dedup dedupReverse stW stW rfl rfl rfl rfl).2.2.2.1

/-- C2 (code evaluated at the failing configuration): when the
completion service has no structured-output support and its response
fails to parse, `review_evidence` makes exactly one completion call (no
retry) and raises a pydantic `ValidationError` — the fallback
`JudicialOpinion(...)` constructor omits the required `id` (and
`confidence`) fields — instead of returning the fallback record the
claim describes. -/
theorem C2_parse_failure_no_retry (svc : CompletionService)
    (dims : List RubricDimension) (persona : String)
    (h1 : svc.hasStructured = false)
    (h2 : svc.standardParse = Except.error ()) :
    review_evidence svc dims persona = (Except.error "Field required: id", 1) ∧
    (∀ j : Judge,
      (review_evidence svc dims persona).1 ≠ Except.ok (specFallbackRecord dims j)) ∧
    (review_evidence svc dims persona).2 ≠ 2 := by
  have heq : review_evidence svc dims persona = (Except.error "Field required: id", 1) := by
    unfold review_evidence
    rw [h1, h2]
    simp only [Bool.false_eq_true, if_false]
    rfl
  refine ⟨heq, ?_, ?_⟩
  · intro j hcontra
    rw [heq] at hcontra
    exact Except.noConfusion hcontra
  · rw [heq]
    omega

/-- Witness for C2: the concrete always-unparseable service. -/
theorem C2_witness :
    review_evidence ⟨false, Except.ok none, Except.error ()⟩ [dimW] "Prosecutor" =
      (Except.error "Field required: id", 1) :=
  (C2_parse_failure_no_retry ⟨false, Except.ok none, Except.error ()⟩ [dimW]
    "Prosecutor" rfl rfl).1

/-- C3 (amended): with zero collected evidence the conditional edge
routes straight to `END`: only the `Detectives` node runs, no judge or
aggregation node is invoked, and the state's `final_report` is left
untouched (no report of any kind is produced). -/
theorem C3_empty_evidence_routes_to_end (env : PipelineEnv) (st0 : AgentState)
    (h : totalEvidence { st0 with evidences := env.detectives st0 } = 0) :
    runPipeline env st0 =
      ({ st0 with evidences := env.detectives st0 }, [NodeName.Detectives]) ∧
    (runPipeline env st0).1.final_report = st0.final_report := by
  have hroute : route_after_detectives { st0 with evidences := env.detectives st0 } = none := by
    rw [route_after_detectives, if_pos h]
  have hmain : runPipeline env st0 =
      ({ st0 with evidences := env.detectives st0 }, [NodeName.Detectives]) := by
    simp only [runPipeline, hroute]
  exact ⟨hmain, by rw [hmain]⟩

/-- Pipeline environment fixture: detectives that find nothing. -/
def envC3 : PipelineEnv :=
  { detectives := fun _ => []
    judgeOpinion := fun j _ => mkOp j 3
    setOrder := List.dedup }

/-- Initial state fixture for the pipeline. -/
def stC3 : AgentState :=
  { repo_url := some "https://example.org/r"
    pdf_path := none
    evidences := []
    opinions := []
    rubric_dimensions := [dimW]
    final_report := none }

/-- Counterexample for C3: on an empty-evidence run the pipeline stops
after `Detectives` — parts of the claim — but `final_report` is `none`:
no minimal "no evidence was found" report is produced anywhere. -/
theorem C3_counterexample :
    (runPipeline envC3 stC3).2 = [NodeName.Detectives] ∧
    (runPipeline envC3 stC3).1.final_report = none :=
  ⟨rfl, rfl⟩

/-- Witness for C3 at the concrete empty-evidence run. -/
theorem C3_witness :
    totalEvidence { stC3 with evidences := envC3.detectives stC3 } = 0 ∧
    runPipeline envC3 stC3 =
      ({ stC3 with evidences := envC3.detectives stC3 }, [NodeName.Detectives]) := by
  have h : totalEvidence { stC3 with evidences := envC3.detectives stC3 } = 0 := by decide
  exact ⟨h, (C3_empty_evidence_routes_to_end envC3 stC3 h).1⟩

/-- C4 (code evaluated at the failing inputs): for *every* input —
repository reference present or absent, clone succeeding or failing,
history extraction succeeding or failing — `RepoInvestigator.collect_evidence`
raises: the very first `Evidence(...)` construction on each path omits
the required `id` field, so pydantic raises a `ValidationError` that
escapes the collector instead of the degraded `found=false` record the
claim requires. -/
theorem C4_collect_evidence_always_raises (env : RepoEnv) (url : Option String) :
    repoInvestigator_collect_evidence env url = Except.error "Field required: id" := by
  obtain ⟨c, hist, g⟩ := env
  rw [repoInvestigator_collect_evidence]
  by_cases ht : isTruthy url
  · rw [if_neg (by simp [ht])]
    cases c with
    | error exc => rfl
    | ok rp =>
      cases hist with
      | error exc => cases g <;> rfl
      | ok commits => cases g <;> rfl
  · rw [if_pos (by simp [ht])]
    rfl

/-- Counterexample for C5: `DocAnalyst` and `VisionInspector` write the
evidence map under the literal key `"repo_investigator"` — the same key
`RepoInvestigator` uses, not their own identity keys — so the
collectors' writes are not a disjoint-key union: at the shared key, the
pre-merge map depends on write order (last writer wins). -/
theorem C5_counterexample :
    (docAnalystStateKey = repoInvestigatorStateKey ∧
     visionInspectorStateKey = repoInvestigatorStateKey ∧
     docAnalystStateKey ≠ "doc_analyst" ∧
     visionInspectorStateKey ≠ "vision_inspector") ∧
    applyAssigns (fun _ => none)
        [(docAnalystStateKey, [mkEvF "e1" "a"]), (visionInspectorStateKey, [mkEvF "e2" "b"])]
        "repo_investigator" ≠
      applyAssigns (fun _ => none)
        [(visionInspectorStateKey, [mkEvF "e2" "b"]), (docAnalystStateKey, [mkEvF "e1" "a"])]
        "repo_investigator" := by
  exact ⟨⟨rfl, rfl, by decide, by decide⟩, by decide⟩

theorem applyAssigns_eq_of_not_mem (init : String → Option (List Evidence))
    (l : List (String × List Evidence)) (k : String)
    (h : ∀ kv ∈ l, kv.1 ≠ k) :
    applyAssigns init l k = init k := by
  induction l generalizing init with
  | nil => rfl
  | cons kv tl ih =>
    simp only [applyAssigns, List.foldl_cons]
    rw [show List.foldl applyAssign (applyAssign init kv) tl =
        applyAssigns (applyAssign init kv) tl from rfl]
    rw [ih (applyAssign init kv) (fun kv2 h2 => h kv2 (List.mem_cons_of_mem _ h2))]
    rw [applyAssign, if_neg (fun he => h kv (List.mem_cons_self _ _) he.symm)]

/-- C5 (amended): although all three collectors write the single shared
key `"repo_investigator"` during the stage, `run_detectives` afterwards
assigns each detective's gathered result list to its own distinct key,
so the final evidence map is independent of the order (or interleaving)
of the collectors' own writes: any two write orders yield identical
final maps. -/
theorem C5_final_merge_order_insensitive
    (init : String → Option (List Evidence)) (r1 r2 r3 : List Evidence)
    (o1 o2 : List (String × List Evidence))
    (h1 : ∀ kv ∈ o1, kv.1 = repoInvestigatorStateKey)
    (h2 : ∀ kv ∈ o2, kv.1 = repoInvestigatorStateKey) :
    runDetectivesFinalMap init o1 r1 r2 r3 = runDetectivesFinalMap init o2 r1 r2 r3 := by
  funext k
  have hfin : ∀ m : String → Option (List Evidence),
      applyAssigns m [("repo_investigator", r1), ("doc_analyst", r2), ("vision_inspector", r3)] k =
        if k = "vision_inspector" then some r3
        else if k = "doc_analyst" then some r2
        else if k = "repo_investigator" then some r1
        else m k := fun m => rfl
  unfold runDetectivesFinalMap
  rw [hfin, hfin]
  split_ifs with hk1 hk2 hk3
  · rfl
  · rfl
  · rfl
  · rw [applyAssigns_eq_of_not_mem init o1 k
      (fun kv hkv => by rw [h1 kv hkv]; exact fun he => hk3 he.symm)]
    rw [applyAssigns_eq_of_not_mem init o2 k
      (fun kv hkv => by rw [h2 kv hkv]; exact fun he => hk3 he.symm)]

/-- Witness for C5: two concrete orders of the collectors' shared-key
writes produce the same final evidence map. -/
theorem C5_witness :
    runDetectivesFinalMap (fun _ => none)
        [(repoInvestigatorStateKey, [mkEvF "e1" "a"]), (docAnalystStateKey, [mkEvF "e2" "b"]),
         (visionInspectorStateKey, [mkEvF "e3" "c"])]
        [mkEvF "e1" "a"] [mkEvF "e2" "b"] [mkEvF "e3" "c"] =
      runDetectivesFinalMap (fun _ => none)
        [(visionInspectorStateKey, [mkEvF "e3" "c"]), (docAnalystStateKey, [mkEvF "e2" "b"]),
         (repoInvestigatorStateKey, [mkEvF "e1" "a"])]
        [mkEvF "e1" "a"] [mkEvF "e2" "b"] [mkEvF "e3" "c"] :=
  C5_final_merge_order_insensitive (fun _ => none)
    [mkEvF "e1" "a"] [mkEvF "e2" "b"] [mkEvF "e3" "c"]
    [(repoInvestigatorStateKey, [mkEvF "e1" "a"]), (docAnalystStateKey, [mkEvF "e2" "b"]),
     (visionInspectorStateKey, [mkEvF "e3" "c"])]
    [(visionInspectorStateKey, [mkEvF "e3" "c"]), (docAnalystStateKey, [mkEvF "e2" "b"]),
     (repoInvestigatorStateKey, [mkEvF "e1" "a"])]
    (by decide) (by decide)

end AutomatonAuditor
